import Mathlib

/-!
Verification of the incident-management application's core workflow:
status transitions and role gates (`app/utils/rbac.py`), the incident
routes (`app/routes/incidents.py`), corrective actions
(`app/routes/corrective_actions.py`), the audit recorder
(`app/utils/audit_log.py`) and the reminder sweep
(`app/services/scheduler.py`), shallowly embedded in Lean.

Conventions of the embedding:
- Database state is a `DB` record of entity lists; a handler returns an
  `Outcome`: its Python-level result (normal return or raised exception)
  together with the list of successive committed snapshots, one per
  `db.commit()` the handler executes.  An exception aborts the handler
  before any further commit; uncommitted session mutations are discarded
  (the `database` module with `get_db`and `SessionLocal` is not part of
  the sources; its rollback-on-error transactional behaviour is modelled
  from the spec, which requires fail-fast with no partial write).
- Wall-clock instants (`datetime.utcnow()`) are abstract `Nat` ticks
  passed as a `now` argument.
- Python enum attribute lookup is modelled by a `member` function from
  attribute names; a name that is not a member yields `none`, which the
  handlers turn into an `AttributeError`, exactly as Python raises one.
-/

namespace IncidentApp

/-- `UserRole` enum from `app/models/__init__.py`. -/
inductive UserRole
  | ADMIN
  | INCIDENT_MANAGER
  | SME
  | SUPPORT_L2
  | SUPPORT_EXPERT
  deriving DecidableEq, Repr, Fintype

/-- `IncidentStatus` enum from `app/models/__init__.py`. -/
inductive IncidentStatus
  | OPEN
  | ACKNOWLEDGED
  | IN_PROGRESS
  | RESOLVED
  | CLOSED
  deriving DecidableEq, Repr, Fintype

/-- `.value` of an `IncidentStatus` member. -/
def IncidentStatus.value : IncidentStatus → String
  | .OPEN => "OPEN"
  | .ACKNOWLEDGED => "ACKNOWLEDGED"
  | .IN_PROGRESS => "IN_PROGRESS"
  | .RESOLVED => "RESOLVED"
  | .CLOSED => "CLOSED"

/-- `IncidentSeverity` enum from `app/models/__init__.py`. -/
inductive IncidentSeverity
  | P1
  | P2
  | P3
  | P4
  deriving DecidableEq, Repr

/-- `.value` of an `IncidentSeverity` member. -/
def IncidentSeverity.value : IncidentSeverity → String
  | .P1 => "P1"
  | .P2 => "P2"
  | .P3 => "P3"
  | .P4 => "P4"

/-- `CorrectiveActionStatus` enum from `app/models/__init__.py`.  The
enum defines exactly the two members `OPEN` and `CLOSED`. -/
inductive CorrectiveActionStatus
  | OPEN
  | CLOSED
  deriving DecidableEq, Repr, Fintype

/-- Python attribute lookup `CorrectiveActionStatus.<name>`: `some` for
the members the enum actually defines, `none` (an `AttributeError` in
Python) for every other name. -/
def CorrectiveActionStatus.member : String → Option CorrectiveActionStatus
  | "OPEN" => some .OPEN
  | "CLOSED" => some .CLOSED
  | _ => none

/-- `AuditAction` enum from `app/models/__init__.py`. -/
inductive AuditAction
  | LOGIN
  | LOGOUT
  | CREATE
  | UPDATE
  | STATUS_CHANGE
  | SEARCH
  | AI_SEARCH
  | GENERATE_REPORT
  | COMMENT
  deriving DecidableEq, Repr

/-- The structured metadata stored (as a JSON string in the source) in
`Audit.extra_data`; modelled as a closed datatype covering the shapes the
embedded call sites build. -/
inductive AuditMeta
  | statusChange (old_status new_status : String)
  | changes (cs : List (String × String × String))
  | reminder (reminder_sent : Bool) (recipient : String)
  deriving DecidableEq, Repr

/-- `User` model (`app/models/user.py`): the fields the embedded handlers
read. -/
structure User where
  id : Nat
  name : String
  email : Option String
  role : UserRole
  deriving DecidableEq, Repr

/-- `Bank` model (`app/models/bank.py`): the fields the embedded handlers
read. -/
structure Bank where
  id : Nat
  name : String
  deriving DecidableEq, Repr

/-- `Incident` model (`app/models/incident.py`). -/
structure Incident where
  id : Nat
  title : String
  description : String
  exception_text : Option String
  bank_id : Nat
  severity : IncidentSeverity
  status : IncidentStatus
  service_name : String
  incident_manager_id : Option Nat
  current_owner_id : Option Nat
  created_by_id : Nat
  acknowledged_at : Option Nat
  resolved_at : Option Nat
  closed_at : Option Nat
  source : Option String
  impact_summary : Option String
  downtime : Option Bool
  financial_impact : Option Bool
  technical_decline_pct : Option Rat
  deriving DecidableEq, Repr

/-- `IncidentTimeline` model (`app/models/incident_timeline.py`). -/
structure IncidentTimeline where
  incident_id : Nat
  event_type : String
  event_description : String
  performed_by_id : Option Nat
  old_value : Option String
  new_value : Option String
  deriving DecidableEq, Repr

/-- `Audit` model (`app/models/audit.py`). -/
structure Audit where
  entity_type : String
  entity_id : Option Nat
  action : AuditAction
  description : Option String
  performed_by_id : Option Nat
  extra_data : Option AuditMeta
  deriving DecidableEq, Repr

/-- A calendar date, the result of `date.fromisoformat`. -/
structure CalDate where
  year : Nat
  month : Nat
  day : Nat
  deriving DecidableEq, Repr

/-- `CorrectiveAction` model (`app/models/corrective_action.py`). -/
structure CorrectiveAction where
  id : Nat
  incident_id : Nat
  title : String
  description : String
  owner_user_id : Option Nat
  due_date : CalDate
  status : CorrectiveActionStatus
  completed_at : Option Nat
  deriving DecidableEq, Repr

/-- The persistent store: one list per entity table. -/
structure DB where
  banks : List Bank
  users : List User
  incidents : List Incident
  timeline : List IncidentTimeline
  audits : List Audit
  actions : List CorrectiveAction
  deriving DecidableEq, Repr

/-- `db.query(Incident).filter(Incident.id == i).first()` -/
def DB.findIncident (db : DB) (i : Nat) : Option Incident :=
  db.incidents.find? fun inc => inc.id == i

/-- `db.query(User).filter(User.id == i).first()` -/
def DB.findUser (db : DB) (i : Nat) : Option User :=
  db.users.find? fun u => u.id == i

/-- `db.query(Bank).filter(Bank.id == i).first()` -/
def DB.findBank (db : DB) (i : Nat) : Option Bank :=
  db.banks.find? fun b => b.id == i

/-- `db.query(CorrectiveAction).filter(CorrectiveAction.id == i).first()` -/
def DB.findAction (db : DB) (i : Nat) : Option CorrectiveAction :=
  db.actions.find? fun a => a.id == i

/-- Autoincrement id assigned by `db.flush()` for a new incident row. -/
def DB.nextIncidentId (db : DB) : Nat :=
  (db.incidents.map Incident.id).foldl max 0 + 1

/-- Autoincrement id assigned on insert for a new corrective-action row. -/
def DB.nextActionId (db : DB) : Nat :=
  (db.actions.map CorrectiveAction.id).foldl max 0 + 1

/-- A Python exception escaping a handler: FastAPI `HTTPException`
(status code and detail), a pydantic request-validation failure (HTTP
422), or an `AttributeError` naming the missing attribute. -/
inductive PyError
  | httpException (statusCode : Nat) (detail : String)
  | validationError (detail : String)
  | attributeError (name : String)
  deriving DecidableEq, Repr

/-- Is this error a 403 Forbidden rejection? -/
def PyError.isForbidden : PyError → Bool
  | .httpException c _ => c == 403
  | _ => false

deriving instance DecidableEq for Except

/-- A handler run: the Python-level result (`.ok` return value or
`.error` for a raised exception) and the successive committed database
snapshots, one per executed `db.commit()`. -/
structure Outcome (α : Type) where
  result : Except PyError α
  commits : List DB
  deriving DecidableEq

/-- The durable state a run leaves behind: the last committed snapshot,
or the initial state when nothing was committed. -/
def Outcome.finalDb {α : Type} (db : DB) (o : Outcome α) : DB :=
  o.commits.getLast?.getD db

/-! ## Role policy (`app/utils/rbac.py`) -/

/-- `can_acknowledge_incident` (`rbac.py`). -/
def can_acknowledge_incident (user : User) : Bool :=
  [UserRole.SUPPORT_L2, UserRole.SUPPORT_EXPERT, UserRole.INCIDENT_MANAGER,
    UserRole.ADMIN].contains user.role

/-- `can_resolve_incident` (`rbac.py`). -/
def can_resolve_incident (user : User) : Bool :=
  [UserRole.INCIDENT_MANAGER, UserRole.ADMIN].contains user.role

/-- `can_update_impact_fields` (`rbac.py`). -/
def can_update_impact_fields (user : User) : Bool :=
  [UserRole.INCIDENT_MANAGER, UserRole.ADMIN].contains user.role

/-- The `valid_transitions` table inside `validate_status_transition`
(`rbac.py`). -/
def valid_transitions : IncidentStatus → List IncidentStatus
  | .OPEN => [.ACKNOWLEDGED]
  | .ACKNOWLEDGED => [.IN_PROGRESS]
  | .IN_PROGRESS => [.RESOLVED]
  | .RESOLVED => [.CLOSED]
  | .CLOSED => []

/-- The 400 error `validate_status_transition` raises for a pair not in
the `valid_transitions` table. -/
def invalidTransitionError (current new : IncidentStatus) : PyError :=
  .httpException 400
    ("Invalid status transition from " ++ current.value ++ " to " ++ new.value)

/-- `validate_status_transition` (`rbac.py`): adjacency in the table
first, then the role gates for `ACKNOWLEDGED` and `RESOLVED`/`CLOSED`. -/
def validate_status_transition (current_status new_status : IncidentStatus)
    (user : User) : Except PyError Unit :=
  if !((valid_transitions current_status).contains new_status) then
    .error (invalidTransitionError current_status new_status)
  else if new_status == .ACKNOWLEDGED then
    if !(can_acknowledge_incident user) then
      .error (.httpException 403
        "Only SUPPORT_L2, SUPPORT_EXPERT, INCIDENT_MANAGER, or ADMIN can acknowledge incidents")
    else .ok ()
  else if new_status == .RESOLVED || new_status == .CLOSED then
    if !(can_resolve_incident user) then
      .error (.httpException 403
        "Only INCIDENT_MANAGER or ADMIN can resolve/close incidents")
    else .ok ()
  else .ok ()

/-! ## Audit recorder (`app/utils/audit_log.py`) -/

/-- `log_audit` (`audit_log.py`): append one `Audit` row and commit. -/
def log_audit (db : DB) (entity_type : String) (entity_id : Option Nat)
    (action : AuditAction) (description : Option String)
    (performed_by_id : Option Nat) (metadata : Option AuditMeta) : DB :=
  { db with audits := db.audits ++
      [{ entity_type := entity_type, entity_id := entity_id, action := action,
         description := description, performed_by_id := performed_by_id,
         extra_data := metadata }] }

/-- `log_incident_create` (`audit_log.py`). -/
def log_incident_create (db : DB) (incident_id : Nat) (user_id : Nat) : DB :=
  log_audit db "INCIDENT" (some incident_id) .CREATE (some "Incident created")
    (some user_id) none

/-- `log_incident_update` (`audit_log.py`). -/
def log_incident_update (db : DB) (incident_id : Nat) (user_id : Nat)
    (changes : List (String × String × String)) : DB :=
  log_audit db "INCIDENT" (some incident_id) .UPDATE (some "Incident updated")
    (some user_id) (some (.changes changes))

/-- `log_status_change` (`audit_log.py`). -/
def log_status_change (db : DB) (incident_id : Nat) (user_id : Nat)
    (old_status new_status : String) : DB :=
  log_audit db "INCIDENT" (some incident_id) .STATUS_CHANGE
    (some ("Status changed from " ++ old_status ++ " to " ++ new_status))
    (some user_id) (some (.statusChange old_status new_status))

/-! ## Incident routes (`app/routes/incidents.py`) -/

/-- `CreateIncidentRequest` body model (`incidents.py`). -/
structure CreateIncidentRequest where
  title : String
  description : String
  exception_text : Option String
  bank_id : Nat
  severity : IncidentSeverity
  service_name : String
  incident_manager_id : Option Nat
  source : Option String
  impact_summary : Option String
  deriving DecidableEq, Repr

/-- `UpdateIncidentRequest` body model (`incidents.py`). -/
structure UpdateIncidentRequest where
  title : Option String
  description : Option String
  exception_text : Option String
  severity : Option IncidentSeverity
  service_name : Option String
  incident_manager_id : Option Nat
  current_owner_id : Option Nat
  impact_summary : Option String
  downtime : Option Bool
  financial_impact : Option Bool
  technical_decline_pct : Option Rat
  deriving DecidableEq, Repr

/-- The pydantic `Field` constraints declared on `UpdateIncidentRequest`
(`incidents.py`): `title` 1..255 chars, `description` at least 1 char,
`service_name` 1..100 chars, `technical_decline_pct` in `[0, 100]`.
The framework checks them before the handler runs. -/
def UpdateIncidentRequest.fieldConstraintsOk (r : UpdateIncidentRequest) : Bool :=
  (match r.title with
    | none => true
    | some t => 1 ≤ t.length && t.length ≤ 255) &&
  (match r.description with
    | none => true
    | some d => 1 ≤ d.length) &&
  (match r.service_name with
    | none => true
    | some s => 1 ≤ s.length && s.length ≤ 100) &&
  (match r.technical_decline_pct with
    | none => true
    | some p => 0 ≤ p && p ≤ 100)

/-- `UpdateStatusRequest` body model (`incidents.py`). -/
structure UpdateStatusRequest where
  status : IncidentStatus
  comment : Option String
  deriving DecidableEq, Repr

/-- The incident-manager validation block of `create_incident`
(`incidents.py`): `true` when the handler raises the 400 "Invalid
incident manager" error.  The guard is
`if incident_data.incident_manager_id:` — Python truthiness — so a
supplied manager id of `0` behaves like an absent one and skips the
validation entirely. -/
def manager_check_fails (db : DB) (incident_manager_id : Option Nat) : Bool :=
  match incident_manager_id with
  | none => false
  | some mid =>
    if mid == 0 then false
    else
      match db.findUser mid with
      | none => true
      | some m => !(m.role == .INCIDENT_MANAGER || m.role == .ADMIN)

/-- `create_incident` (`incidents.py`).  The post-commit call to
`_run_ai_similar_search` goes to the external advisory collaborator; it
is modelled by the arbitrary `ai` argument, which may commit further
state (`.ok`) or raise (`.error`); the handler wraps it in
`try/except`. -/
def create_incident (db : DB) (user : User) (r : CreateIncidentRequest)
    (ai : DB → Nat → Except String DB) : Outcome Incident :=
  match db.findBank r.bank_id with
  | none => ⟨.error (.httpException 404 "Bank not found"), []⟩
  | some _ =>
    if manager_check_fails db r.incident_manager_id then
      ⟨.error (.httpException 400
        "Invalid incident manager (must be INCIDENT_MANAGER or ADMIN)"), []⟩
    else
      let newId := db.nextIncidentId
      let incident : Incident :=
        { id := newId, title := r.title, description := r.description,
          exception_text := r.exception_text, bank_id := r.bank_id,
          severity := r.severity, status := .OPEN,
          service_name := r.service_name,
          incident_manager_id := r.incident_manager_id,
          current_owner_id := none, created_by_id := user.id,
          acknowledged_at := none, resolved_at := none, closed_at := none,
          -- `incident_data.source or "Manual"`: Python truthiness again,
          -- so both None and "" fall back to "Manual".
          source := some (match r.source with
            | some s => if s == "" then "Manual" else s
            | none => "Manual"),
          impact_summary := r.impact_summary,
          downtime := none, financial_impact := none,
          technical_decline_pct := none }
      let entry : IncidentTimeline :=
        { incident_id := newId, event_type := "CREATE",
          event_description := "Incident created by " ++ user.name,
          performed_by_id := some user.id, old_value := none,
          new_value := none }
      let db1 : DB := { db with incidents := db.incidents ++ [incident],
                                timeline := db.timeline ++ [entry] }
      let db2 := log_incident_create db1 newId user.id
      -- the advisory call may commit further state (`.ok`) or raise; the
      -- handler's `except` makes either way return the created incident
      ⟨.ok incident, [db1, db2] ++ (match ai db2 newId with
        | .ok db3 => [db3]
        | .error _ => [])⟩

/-- The basic-field section of `update_incident` (`incidents.py`,
before the impact-field gate): applies `title`, `description`,
`exception_text`, `severity`, `service_name`, `impact_summary` and
collects the `changes` entries as `(field, old, new)` triples. -/
def apply_basic_fields (incident : Incident) (r : UpdateIncidentRequest) :
    Incident × List (String × String × String) :=
  let step1 := match r.title with
    | none => (incident, [])
    | some t => ({ incident with title := t },
        [("title", incident.title, t)])
  let step2 := match r.description with
    | none => step1
    | some d => ({ step1.1 with description := d },
        step1.2 ++ [("description", incident.description.take 50, d.take 50)])
  let step3 := match r.exception_text with
    | none => step2
    | some e => ({ step2.1 with exception_text := some e }, step2.2)
  let step4 := match r.severity with
    | none => step3
    | some sv => ({ step3.1 with severity := sv },
        step3.2 ++ [("severity", incident.severity.value, sv.value)])
  let step5 := match r.service_name with
    | none => step4
    | some sn => ({ step4.1 with service_name := sn },
        step4.2 ++ [("service_name", incident.service_name, sn)])
  match r.impact_summary with
  | none => step5
  | some im => ({ step5.1 with impact_summary := some im }, step5.2)

/-- The impact-field section of `update_incident` (`incidents.py`),
reached only when the role gate passed. -/
def apply_impact_fields (incident : Incident) (r : UpdateIncidentRequest) :
    Incident :=
  let i1 := match r.downtime with
    | none => incident
    | some d => { incident with downtime := some d }
  let i2 := match r.financial_impact with
    | none => i1
    | some f => { i1 with financial_impact := some f }
  match r.technical_decline_pct with
  | none => i2
  | some p => { i2 with technical_decline_pct := some p }

/-- The assignment section of `update_incident` (`incidents.py`):
reassigns `incident_manager_id` (only to an existing user whose role is
`INCIDENT_MANAGER` or `ADMIN`; silently skipped otherwise) and
`current_owner_id` (only to an existing user), adding a `changes` entry
and an `ASSIGNMENT` timeline row per applied reassignment. -/
def apply_assignments (db : DB) (incident : Incident) (user : User)
    (r : UpdateIncidentRequest) :
    Incident × List (String × String × String) × List IncidentTimeline :=
  let oldManagerName := match incident.incident_manager_id with
    | none => "None"
    | some i => match db.findUser i with
      | none => "None"
      | some m => m.name
  let stepM :
      Incident × List (String × String × String) × List IncidentTimeline :=
    match r.incident_manager_id with
    | none => (incident, [], [])
    | some mid =>
      match db.findUser mid with
      | none => (incident, [], [])
      | some m =>
        if m.role == .INCIDENT_MANAGER || m.role == .ADMIN then
          ({ incident with incident_manager_id := some mid },
           [("incident_manager", oldManagerName, m.name)],
           [{ incident_id := incident.id, event_type := "ASSIGNMENT",
              event_description := "Incident manager changed to " ++ m.name,
              performed_by_id := some user.id, old_value := none,
              new_value := none }])
        else (incident, [], [])
  let oldOwnerName := match incident.current_owner_id with
    | none => "None"
    | some i => match db.findUser i with
      | none => "None"
      | some o => o.name
  match r.current_owner_id with
  | none => stepM
  | some oid =>
    match db.findUser oid with
    | none => stepM
    | some o =>
      ({ stepM.1 with current_owner_id := some oid },
       stepM.2.1 ++ [("current_owner", oldOwnerName, o.name)],
       stepM.2.2 ++
         [{ incident_id := incident.id, event_type := "ASSIGNMENT",
            event_description := "Current owner changed to " ++ o.name,
            performed_by_id := some user.id, old_value := none,
            new_value := none }])

/-- `update_incident` (`incidents.py`).  Basic fields are staged on the
session first; the impact-field role gate then either raises 403 —
discarding the uncommitted staging — or the impact fields and
assignments are applied and everything is committed; an `UPDATE` audit
record is written (in a second transaction) only when the `changes` map
is non-empty. -/
def update_incident (db : DB) (user : User) (incident_id : Nat)
    (r : UpdateIncidentRequest) : Outcome Incident :=
  match db.findIncident incident_id with
  | none => ⟨.error (.httpException 404 "Incident not found"), []⟩
  | some incident =>
    let basic := apply_basic_fields incident r
    let impact_updated := r.downtime.isSome || r.financial_impact.isSome
      || r.technical_decline_pct.isSome
    if impact_updated && !(can_update_impact_fields user) then
      ⟨.error (.httpException 403
        "Only INCIDENT_MANAGER or ADMIN can update impact fields"), []⟩
    else
      let inc2 := if impact_updated then apply_impact_fields basic.1 r
        else basic.1
      let assigned := apply_assignments db inc2 user r
      let changes := basic.2 ++ assigned.2.1
      let db1 : DB := { db with
        incidents := db.incidents.map fun i =>
          if i.id == incident_id then assigned.1 else i,
        timeline := db.timeline ++ assigned.2.2 }
      if changes.isEmpty then ⟨.ok assigned.1, [db1]⟩
      else ⟨.ok assigned.1,
        [db1, log_incident_update db1 incident_id user.id changes]⟩

/-- The `PUT /incidents/{id}` endpoint as seen by a client: pydantic
validates the body against the declared `Field` constraints before the
handler runs; a constraint violation is a 422 with no handler
execution and hence no persistence. -/
def update_incident_route (db : DB) (user : User) (incident_id : Nat)
    (r : UpdateIncidentRequest) : Outcome Incident :=
  if r.fieldConstraintsOk then update_incident db user incident_id r
  else ⟨.error (.validationError "request body failed field validation"), []⟩

/-- `update_incident_status` (`incidents.py`): fetch, validate the
transition, stage status + timestamp + `STATUS_CHANGE` timeline row,
commit, then write the `STATUS_CHANGE` audit record (its own commit,
inside `log_audit`). -/
def update_incident_status (db : DB) (user : User) (incident_id : Nat)
    (req : UpdateStatusRequest) (now : Nat) : Outcome Incident :=
  match db.findIncident incident_id with
  | none => ⟨.error (.httpException 404 "Incident not found"), []⟩
  | some incident =>
    let old_status := incident.status
    let new_status := req.status
    match validate_status_transition old_status new_status user with
    | .error e => ⟨.error e, []⟩
    | .ok _ =>
      let inc1 := { incident with
        status := new_status,
        acknowledged_at := if new_status == .ACKNOWLEDGED then some now
          else incident.acknowledged_at,
        resolved_at := if new_status == .RESOLVED then some now
          else incident.resolved_at,
        closed_at := if new_status == .CLOSED then some now
          else incident.closed_at }
      let base := "Status changed from " ++ old_status.value ++ " to "
        ++ new_status.value
      let description := match req.comment with
        | none => base
        | some c => base ++ ": " ++ c
      let entry : IncidentTimeline :=
        { incident_id := incident_id, event_type := "STATUS_CHANGE",
          event_description := description, performed_by_id := some user.id,
          old_value := some old_status.value,
          new_value := some new_status.value }
      let db1 : DB := { db with
        incidents := db.incidents.map fun i =>
          if i.id == incident_id then inc1 else i,
        timeline := db.timeline ++ [entry] }
      let db2 := log_status_change db1 incident_id user.id old_status.value
        new_status.value
      ⟨.ok inc1, [db1, db2]⟩

/-! ## Corrective-action routes (`app/routes/corrective_actions.py`) -/

/-- Is `y` a leap year (proleptic Gregorian, as Python's `date`)? -/
def isLeapYear (y : Nat) : Bool :=
  y % 4 == 0 && (y % 100 != 0 || y % 400 == 0)

/-- Days in month `m` of year `y`. -/
def daysInMonth (y m : Nat) : Nat :=
  if m == 2 then (if isLeapYear y then 29 else 28)
  else if [4, 6, 9, 11].contains m then 30
  else 31

/-- The value of a decimal digit character, `none` otherwise. -/
def digitVal (c : Char) : Option Nat :=
  if c.isDigit then some (c.toNat - 48) else none

/-- The semantics of the stdlib call `date.fromisoformat(s)` as used by
the corrective-action routes: parse the ISO `YYYY-MM-DD` layout and
check it is a real calendar date (year 1..9999, month 1..12, day within
the month); any other input raises `ValueError`, here `none`. -/
def date_fromisoformat (s : String) : Option CalDate :=
  match s.toList with
  | [y1, y2, y3, y4, sep1, m1, m2, sep2, d1, d2] =>
    if sep1 == '-' && sep2 == '-' then
      match digitVal y1, digitVal y2, digitVal y3, digitVal y4,
          digitVal m1, digitVal m2, digitVal d1, digitVal d2 with
      | some a, some b, some c, some e, some f, some g, some h, some i =>
        let y := ((a * 10 + b) * 10 + c) * 10 + e
        let m := f * 10 + g
        let d := h * 10 + i
        if 1 ≤ y && 1 ≤ m && m ≤ 12 && 1 ≤ d && d ≤ daysInMonth y m then
          some { year := y, month := m, day := d }
        else none
      | _, _, _, _, _, _, _, _ => none
    else none
  | _ => none

/-- `CreateCorrectiveActionRequest` body model
(`corrective_actions.py`). -/
structure CreateCorrectiveActionRequest where
  incident_id : Nat
  title : String
  description : String
  owner_user_id : Nat
  due_date : String
  deriving DecidableEq, Repr

/-- `UpdateCorrectiveActionRequest` body model
(`corrective_actions.py`). -/
structure UpdateCorrectiveActionRequest where
  title : Option String
  description : Option String
  owner_user_id : Option Nat
  due_date : Option String
  status : Option CorrectiveActionStatus
  deriving DecidableEq, Repr

/-- `create_corrective_action` (`corrective_actions.py`): parent
incident must exist and be `RESOLVED`/`CLOSED`, `due_date` must parse;
then the action is inserted with status `OPEN` and committed, and one
`CREATE` audit record is written (its own commit). -/
def create_corrective_action (db : DB) (user : User)
    (r : CreateCorrectiveActionRequest) : Outcome CorrectiveAction :=
  match db.findIncident r.incident_id with
  | none => ⟨.error (.httpException 404 "Incident not found"), []⟩
  | some incident =>
    if !(incident.status == .RESOLVED || incident.status == .CLOSED) then
      ⟨.error (.httpException 400
        "Corrective actions can only be created for RESOLVED or CLOSED incidents"),
       []⟩
    else
      match date_fromisoformat r.due_date with
      | none =>
        ⟨.error (.httpException 400 "Invalid due_date format (use YYYY-MM-DD)"),
         []⟩
      | some d =>
        let newId := db.nextActionId
        let action : CorrectiveAction :=
          { id := newId, incident_id := r.incident_id, title := r.title,
            description := r.description,
            owner_user_id := some r.owner_user_id, due_date := d,
            status := .OPEN, completed_at := none }
        let db1 : DB := { db with actions := db.actions ++ [action] }
        let db2 := log_audit db1 "CORRECTIVE_ACTION" (some newId) .CREATE
          (some "Corrective action created") (some user.id) none
        ⟨.ok action, [db1, db2]⟩

/-- `update_corrective_action` (`corrective_actions.py`).  When the
request carries a `status`, the handler evaluates
`CorrectiveActionStatus.COMPLETED`; `COMPLETED` is not a member of the
enum (it defines only `OPEN` and `CLOSED`), so the attribute lookup
raises `AttributeError` before the commit is reached. -/
def update_corrective_action (db : DB) (user : User) (action_id : Nat)
    (r : UpdateCorrectiveActionRequest) (now : Nat) : Outcome CorrectiveAction :=
  match db.findAction action_id with
  | none => ⟨.error (.httpException 404 "Corrective action not found"), []⟩
  | some a0 =>
    let a1 := match r.title with
      | none => a0
      | some t => { a0 with title := t }
    let a2 := match r.description with
      | none => a1
      | some d => { a1 with description := d }
    let a3 := match r.owner_user_id with
      | none => a2
      | some o => { a2 with owner_user_id := some o }
    match (match r.due_date with
      | none => some a3
      | some ds => match date_fromisoformat ds with
        | none => none
        | some d => some { a3 with due_date := d }) with
    | none => ⟨.error (.httpException 400 "Invalid due_date format"), []⟩
    | some a4 =>
      match r.status with
      | none =>
        let db1 : DB := { db with actions := db.actions.map fun a =>
          if a.id == action_id then a4 else a }
        ⟨.ok a4, [db1, log_audit db1 "CORRECTIVE_ACTION" (some action_id)
          .UPDATE (some "Corrective action updated") (some user.id) none]⟩
      | some st =>
        let a5 := { a4 with status := st }
        match CorrectiveActionStatus.member "COMPLETED" with
        | none => ⟨.error (.attributeError "COMPLETED"), []⟩
        | some completed =>
          let a6 := if st == completed && a5.completed_at == none then
              { a5 with completed_at := some now }
            else a5
          let db1 : DB := { db with actions := db.actions.map fun a =>
            if a.id == action_id then a6 else a }
          ⟨.ok a6, [db1, log_audit db1 "CORRECTIVE_ACTION" (some action_id)
            .UPDATE (some "Corrective action updated") (some user.id) none]⟩

/-! ## Reminder sweep (`app/services/scheduler.py`) -/

/-- `action.owner` / `action.owner.email` as read by the sweep: the
owner relationship resolved against the users table, with Python's
truthiness on the email (both `None` and `""` are unusable). -/
def reminder_recipient (db : DB) (a : CorrectiveAction) : Option String :=
  match (match a.owner_user_id with
    | none => none
    | some i => db.findUser i) with
  | none => none
  | some o =>
    match o.email with
    | none => none
    | some e => if e == "" then none else some e

/-- The result of one `ReminderScheduler.send_reminders` run: final
database, the `sent_count`/`failed_count` aggregates, and the exception
swallowed by the sweep's `except Exception` block, if any. -/
structure SweepOutcome where
  finalDb : DB
  sent_count : Nat
  failed_count : Nat
  swallowed : Option PyError
  deriving DecidableEq, Repr

/-- `ReminderScheduler.send_reminders` (`scheduler.py`).  The email
collaborator is the external `sendEmail` argument (recipient address to
success flag).  Building the query filter evaluates
`CorrectiveActionStatus.IN_PROGRESS`, which is not a member of the enum,
so the sweep raises `AttributeError` at once; the surrounding
`except Exception` swallows it and the run ends with no reminder sent
and no audit written. -/
def send_reminders (db : DB) (sendEmail : String → Bool) : SweepOutcome :=
  match CorrectiveActionStatus.member "IN_PROGRESS" with
  | none => { finalDb := db, sent_count := 0, failed_count := 0,
              swallowed := some (.attributeError "IN_PROGRESS") }
  | some inprog =>
    let pending := db.actions.filter fun a =>
      a.status == .OPEN || a.status == inprog
    let step : DB × Nat × Nat → CorrectiveAction → DB × Nat × Nat :=
      fun acc a =>
        match reminder_recipient acc.1 a with
        | none => acc
        | some email =>
          let success := sendEmail email
          let d2 := log_audit acc.1 "CORRECTIVE_ACTION" (some a.id) .UPDATE
            (some (if success then "Email reminder sent to " ++ email
              else "Email reminder failed"))
            none (some (.reminder success email))
          (d2, (if success then acc.2.1 + 1 else acc.2.1),
            (if success then acc.2.2 else acc.2.2 + 1))
    let final := pending.foldl step (db, 0, 0)
    { finalDb := final.1, sent_count := final.2.1,
      failed_count := final.2.2, swallowed := none }

/-! ## Spec-side definitions and sample data -/

/-- Following the spec's words: the position of a status in the fixed
forward chain OPEN→ACKNOWLEDGED→IN_PROGRESS→RESOLVED→CLOSED. -/
def chainIndex : IncidentStatus → Nat
  | .OPEN => 0
  | .ACKNOWLEDGED => 1
  | .IN_PROGRESS => 2
  | .RESOLVED => 3
  | .CLOSED => 4

/-- Following the spec's words: `(current, target)` is adjacent in the
fixed forward chain, i.e. the target sits one step after the current
status. -/
def spec_chain_adjacent (current target : IncidentStatus) : Bool :=
  chainIndex target == chainIndex current + 1

/-- Did `validate_status_transition` accept the transition? -/
def acceptedTransition (current target : IncidentStatus) (u : User) : Bool :=
  match validate_status_transition current target u with
  | .ok _ => true
  | .error _ => false

/-- Sample bank. -/
def bank1 : Bank := { id := 1, name := "First Bank" }

/-- Sample ADMIN user. -/
def adminUser : User :=
  { id := 1, name := "Alice", email := some "alice@example.com",
    role := .ADMIN }

/-- Sample SME user. -/
def smeUser : User :=
  { id := 2, name := "Sam", email := some "sam@example.com", role := .SME }

/-- Sample SUPPORT_L2 user. -/
def l2User : User :=
  { id := 3, name := "Lee", email := some "lee@example.com",
    role := .SUPPORT_L2 }

/-- Sample INCIDENT_MANAGER user. -/
def managerUser : User :=
  { id := 4, name := "Mia", email := some "mia@example.com",
    role := .INCIDENT_MANAGER }

/-- Sample freshly created incident (status OPEN). -/
def incident1 : Incident :=
  { id := 1, title := "Payments outage", description := "API errors",
    exception_text := none, bank_id := 1, severity := .P1, status := .OPEN,
    service_name := "payments", incident_manager_id := none,
    current_owner_id := none, created_by_id := 1, acknowledged_at := none,
    resolved_at := none, closed_at := none, source := some "Manual",
    impact_summary := none, downtime := none, financial_impact := none,
    technical_decline_pct := none }

/-- Sample database: one bank, four users, one OPEN incident. -/
def db0 : DB :=
  { banks := [bank1], users := [adminUser, smeUser, l2User, managerUser],
    incidents := [incident1], timeline := [], audits := [], actions := [] }

/-- `db0` with the incident RESOLVED. -/
def dbResolved : DB :=
  { db0 with incidents :=
      [{ incident1 with status := .RESOLVED, resolved_at := some 4 }] }

/-- Sample corrective action (OPEN, owned by `l2User`). -/
def action1 : CorrectiveAction :=
  { id := 1, incident_id := 1, title := "Add circuit breaker",
    description := "Protect the payments API", owner_user_id := some 3,
    due_date := { year := 2026, month := 1, day := 15 }, status := .OPEN,
    completed_at := none }

/-- `dbResolved` with one OPEN corrective action whose owner has a
usable email address. -/
def dbWithAction : DB := { dbResolved with actions := [action1] }

/-! ## Claims -/

/-- `validate_status_transition` reads the user only through its role;
this is that function with a canonical user of the given role. -/
def validateByRole (c n : IncidentStatus) (r : UserRole) :
    Except PyError Unit :=
  validate_status_transition c n { id := 0, name := "", email := none, role := r }

theorem validate_eq_byRole (c n : IncidentStatus) (u : User) :
    validate_status_transition c n u = validateByRole c n u.role := rfl

/-- `acceptedTransition` with a canonical user of the given role. -/
def acceptedByRole (c n : IncidentStatus) (r : UserRole) : Bool :=
  acceptedTransition c n { id := 0, name := "", email := none, role := r }

theorem accepted_eq_byRole (c n : IncidentStatus) (u : User) :
    acceptedTransition c n u = acceptedByRole c n u.role := rfl

/-- C1: for every incident and every status-change request, the
transition from current status to target status is accepted only if the
pair is adjacent in the fixed forward chain
OPEN→ACKNOWLEDGED→IN_PROGRESS→RESOLVED→CLOSED; every non-adjacent pair
(skips, reversals, self-transitions, and any transition out of CLOSED)
is rejected with the "Invalid status transition" 400 error regardless of
the actor, so an incident starting at OPEN only ever moves one step
forward along that chain. -/
theorem C1_status_transitions_follow_fixed_chain :
    (∀ (c n : IncidentStatus) (u : User),
        acceptedTransition c n u = true → spec_chain_adjacent c n = true)
    ∧ (∀ (c n : IncidentStatus) (u : User),
        spec_chain_adjacent c n = false →
          validate_status_transition c n u =
            .error (invalidTransitionError c n))
    ∧ (∀ (c n : IncidentStatus) (u : User),
        acceptedTransition c n u = true → chainIndex n = chainIndex c + 1) := by
  refine ⟨?_, ?_, ?_⟩ <;>
    · intro c n u
      simp only [accepted_eq_byRole, validate_eq_byRole]
      generalize u.role = r
      revert c n r
      decide

/-- C2: among structurally legal transitions, entering ACKNOWLEDGED is
accepted exactly for SUPPORT_L2, SUPPORT_EXPERT, INCIDENT_MANAGER and
ADMIN; entering RESOLVED or CLOSED exactly for INCIDENT_MANAGER and
ADMIN; entering IN_PROGRESS has no role gate.  A role-policy failure
makes the status endpoint return the Forbidden error with no commit, so
the incident is unchanged; in particular an SME attempting
OPEN→ACKNOWLEDGED gets 403 while the same call by SUPPORT_L2 succeeds
(and stamps `acknowledged_at`). -/
theorem C2_role_gates_on_transitions :
    (∀ (c : IncidentStatus) (u : User),
        spec_chain_adjacent c .ACKNOWLEDGED = true →
          (acceptedTransition c .ACKNOWLEDGED u = true ↔
            u.role ∈ [UserRole.SUPPORT_L2, UserRole.SUPPORT_EXPERT,
              UserRole.INCIDENT_MANAGER, UserRole.ADMIN]))
    ∧ (∀ (c n : IncidentStatus) (u : User),
        spec_chain_adjacent c n = true →
        (n = .RESOLVED ∨ n = .CLOSED) →
          (acceptedTransition c n u = true ↔
            u.role ∈ [UserRole.INCIDENT_MANAGER, UserRole.ADMIN]))
    ∧ (∀ (c : IncidentStatus) (u : User),
        spec_chain_adjacent c .IN_PROGRESS = true →
          acceptedTransition c .IN_PROGRESS u = true)
    ∧ (∀ (db : DB) (u : User) (iid : Nat) (req : UpdateStatusRequest)
        (now : Nat) (inc : Incident) (e : PyError),
        db.findIncident iid = some inc →
        validate_status_transition inc.status req.status u = .error e →
        e.isForbidden = true →
          update_incident_status db u iid req now = ⟨.error e, []⟩)
    ∧ update_incident_status db0 smeUser 1
        { status := .ACKNOWLEDGED, comment := none } 5 =
        ⟨.error (.httpException 403
          "Only SUPPORT_L2, SUPPORT_EXPERT, INCIDENT_MANAGER, or ADMIN can acknowledge incidents"),
         []⟩
    ∧ (update_incident_status db0 l2User 1
        { status := .ACKNOWLEDGED, comment := none } 5).result =
        .ok { incident1 with
              status := .ACKNOWLEDGED, acknowledged_at := some 5 } := by
  refine ⟨?_, ?_, ?_, ?_, by decide, by decide⟩
  · intro c u h
    rw [accepted_eq_byRole]
    revert h
    generalize u.role = r
    revert c r
    decide
  · intro c n u h h2
    rw [accepted_eq_byRole]
    revert h h2
    generalize u.role = r
    revert c n r
    decide
  · intro c u h
    rw [accepted_eq_byRole]
    revert h
    generalize u.role = r
    revert c r
    decide
  · intro db u iid req now inc e hfind hval hforb
    simp only [update_incident_status, hfind, hval]

/-- C3 counterexample: the status endpoint's first commit already
contains the updated status and the STATUS_CHANGE timeline entry but no
STATUS_CHANGE audit record, so the claim that both records are persisted
in the same transaction as the status update (no partial commit
possible) is false on the concrete run OPEN→ACKNOWLEDGED by SUPPORT_L2
on `db0`. -/
theorem C3_counterexample :
    ∃ d ∈ (update_incident_status db0 l2User 1
        { status := .ACKNOWLEDGED, comment := none } 5).commits,
      (d.findIncident 1).map Incident.status = some .ACKNOWLEDGED ∧
      d.timeline.countP (fun t => t.event_type == "STATUS_CHANGE") = 1 ∧
      d.audits.countP (fun a => a.action == .STATUS_CHANGE) = 0 := by
  decide

/-- C3 (amended): every accepted status change commits exactly one new
STATUS_CHANGE timeline entry together with the status update in the
first transaction, and exactly one new STATUS_CHANGE audit record in a
second transaction committed immediately afterwards; a failure between
the two commits can leave the status updated without the audit
record. -/
theorem C3_status_change_record_protocol :
    ∀ (db : DB) (u : User) (iid : Nat) (req : UpdateStatusRequest)
      (now : Nat) (inc2 : Incident),
      (update_incident_status db u iid req now).result = .ok inc2 →
      ∃ d1 d2 entry arec,
        (update_incident_status db u iid req now).commits = [d1, d2] ∧
        d1.timeline = db.timeline ++ [entry] ∧
        entry.event_type = "STATUS_CHANGE" ∧
        d1.audits = db.audits ∧
        d1.incidents = db.incidents.map
          (fun i => if i.id == iid then inc2 else i) ∧
        inc2.status = req.status ∧
        d2.timeline = d1.timeline ∧
        d2.audits = d1.audits ++ [arec] ∧
        arec.action = .STATUS_CHANGE := by
  intro db u iid req now inc2 h
  cases hf : db.findIncident iid with
  | none =>
    simp only [update_incident_status, hf] at h
    exact Except.noConfusion h
  | some inc =>
    cases hv : validate_status_transition inc.status req.status u with
    | error e =>
      simp only [update_incident_status, hf, hv] at h
      exact Except.noConfusion h
    | ok unitv =>
      simp only [update_incident_status, hf, hv, Except.ok.injEq] at h ⊢
      subst h
      exact ⟨_, _, _, _, rfl, rfl, rfl, rfl, rfl, rfl, rfl, rfl, rfl⟩

/-- Witness for `C3_status_change_record_protocol` at the concrete
accepted run OPEN→ACKNOWLEDGED by SUPPORT_L2 on `db0`. -/
theorem C3_status_change_record_protocol_witness :
    ∃ d1 d2 entry arec,
      (update_incident_status db0 l2User 1
        { status := .ACKNOWLEDGED, comment := none } 5).commits = [d1, d2] ∧
      d1.timeline = db0.timeline ++ [entry] ∧
      entry.event_type = "STATUS_CHANGE" ∧
      d1.audits = db0.audits ∧
      d1.incidents = db0.incidents.map
        (fun i => if i.id == 1 then { incident1 with
          status := .ACKNOWLEDGED, acknowledged_at := some 5 } else i) ∧
      Incident.status { incident1 with
        status := .ACKNOWLEDGED, acknowledged_at := some 5 } = .ACKNOWLEDGED ∧
      d2.timeline = d1.timeline ∧
      d2.audits = d1.audits ++ [arec] ∧
      arec.action = .STATUS_CHANGE :=
  C3_status_change_record_protocol db0 l2User 1
    { status := .ACKNOWLEDGED, comment := none } 5
    { incident1 with status := .ACKNOWLEDGED, acknowledged_at := some 5 }
    (by decide)

/-- C7: an incident update whose `technical_decline_pct` lies outside
`[0, 100]` is rejected by the declared field validation (422) before the
handler runs: no commit happens, so no incident field changes and no
timeline or audit record is written. -/
theorem C7_out_of_range_pct_rejected_before_persistence :
    ∀ (db : DB) (u : User) (iid : Nat) (r : UpdateIncidentRequest) (p : Rat),
      r.technical_decline_pct = some p → (p < 0 ∨ 100 < p) →
      update_incident_route db u iid r =
        ⟨.error (.validationError "request body failed field validation"),
         []⟩ := by
  intro db u iid r p hp hout
  have hbad : r.fieldConstraintsOk = false := by
    simp only [UpdateIncidentRequest.fieldConstraintsOk, hp]
    rcases hout with h | h
    · simp [show ¬(0 : Rat) ≤ p from not_le.mpr h]
    · simp [show ¬p ≤ (100 : Rat) from not_le.mpr h]
  simp [update_incident_route, hbad]

/-- The request body of the spec's example: set `technical_decline_pct`
to 150 and nothing else. -/
def req150 : UpdateIncidentRequest :=
  { title := none, description := none, exception_text := none,
    severity := none, service_name := none, incident_manager_id := none,
    current_owner_id := none, impact_summary := none, downtime := none,
    financial_impact := none, technical_decline_pct := some 150 }

/-- Witness for `C7_out_of_range_pct_rejected_before_persistence` at the
spec's concrete example value 150. -/
theorem C7_witness_pct_150 :
    update_incident_route db0 managerUser 1 req150 =
      ⟨.error (.validationError "request body failed field validation"),
       []⟩ :=
  C7_out_of_range_pct_rejected_before_persistence db0 managerUser 1 req150
    150 rfl (Or.inr (by norm_num))

/-- C8: an incident update by an actor who is neither INCIDENT_MANAGER
nor ADMIN and that touches any impact field (`downtime`,
`financial_impact`, `technical_decline_pct`) is rejected with the 403
error and nothing is committed, so in particular none of the impact
fields is mutated. -/
theorem C8_impact_fields_gated_by_role :
    ∀ (db : DB) (u : User) (iid : Nat) (r : UpdateIncidentRequest)
      (inc : Incident),
      db.findIncident iid = some inc →
      u.role ≠ .INCIDENT_MANAGER → u.role ≠ .ADMIN →
      (r.downtime.isSome || r.financial_impact.isSome ||
        r.technical_decline_pct.isSome) = true →
      update_incident db u iid r =
        ⟨.error (.httpException 403
          "Only INCIDENT_MANAGER or ADMIN can update impact fields"),
         []⟩ := by
  intro db u iid r inc hf h1 h2 himp
  have hcan : can_update_impact_fields u = false := by
    cases hr : u.role
    case INCIDENT_MANAGER => exact absurd hr h1
    case ADMIN => exact absurd hr h2
    all_goals unfold can_update_impact_fields
    all_goals rw [hr]
    all_goals rfl
  simp [update_incident, hf, himp, hcan]

/-- The request body for the C8 witness: set `downtime` and a new title
and nothing else. -/
def reqImpact : UpdateIncidentRequest :=
  { title := some "Payments degraded", description := none,
    exception_text := none, severity := none, service_name := none,
    incident_manager_id := none, current_owner_id := none,
    impact_summary := none, downtime := some true, financial_impact := none,
    technical_decline_pct := none }

/-- Witness for `C8_impact_fields_gated_by_role`: the SME's mixed update
on `db0` is rejected outright. -/
theorem C8_witness_sme_impact_update :
    update_incident db0 smeUser 1 reqImpact =
      ⟨.error (.httpException 403
        "Only INCIDENT_MANAGER or ADMIN can update impact fields"), []⟩ :=
  C8_impact_fields_gated_by_role db0 smeUser 1 reqImpact incident1
    (by decide) (by decide) (by decide) rfl

/-- Request marking a corrective action CLOSED (the only completed-like
member the enum offers) and touching nothing else. -/
def reqMarkClosed : UpdateCorrectiveActionRequest :=
  { title := none, description := none, owner_user_id := none,
    due_date := none, status := some .CLOSED }

/-- C4 (code behaviour): the `completed_at` stamping branch is
unreachable.  `CorrectiveActionStatus` defines only OPEN and CLOSED, so
evaluating `CorrectiveActionStatus.COMPLETED` on line 130 of
`corrective_actions.py` raises `AttributeError`: every update request
that carries a `status` fails before the commit, nothing is persisted,
and `completed_at` is never stamped. -/
theorem C4_completed_stamp_unreachable :
    CorrectiveActionStatus.member "COMPLETED" = none
    ∧ (∀ (db : DB) (u : User) (aid : Nat)
        (r : UpdateCorrectiveActionRequest) (now : Nat)
        (a : CorrectiveAction) (st : CorrectiveActionStatus),
        db.findAction aid = some a → r.due_date = none →
        r.status = some st →
        update_corrective_action db u aid r now =
          ⟨.error (.attributeError "COMPLETED"), []⟩)
    ∧ update_corrective_action dbWithAction managerUser 1 reqMarkClosed 9 =
        ⟨.error (.attributeError "COMPLETED"), []⟩
    ∧ ((update_corrective_action dbWithAction managerUser 1 reqMarkClosed 9).finalDb
        dbWithAction).actions = [action1] := by
  refine ⟨rfl, ?_, by decide, by decide⟩
  intro db u aid r now a st hf hdue hst
  simp only [update_corrective_action, hf, hdue, hst]
  rfl

/-- C6 (code behaviour): the reminder sweep never dispatches anything.
Building the query filter evaluates `CorrectiveActionStatus.IN_PROGRESS`
(`scheduler.py` line 94), which is not a member of the enum, so every
run raises `AttributeError`, swallowed by the sweep's `except` block:
zero reminders are attempted and zero audit entries written, even for an
OPEN action whose owner has a usable email address. -/
theorem C6_reminder_sweep_always_crashes :
    CorrectiveActionStatus.member "IN_PROGRESS" = none
    ∧ (∀ (db : DB) (sendEmail : String → Bool),
        send_reminders db sendEmail =
          { finalDb := db, sent_count := 0, failed_count := 0,
            swallowed := some (.attributeError "IN_PROGRESS") })
    ∧ send_reminders dbWithAction (fun _ => true) =
        { finalDb := dbWithAction, sent_count := 0, failed_count := 0,
          swallowed := some (.attributeError "IN_PROGRESS") }
    ∧ reminder_recipient dbWithAction action1 = some "lee@example.com"
    ∧ action1.status = .OPEN := by
  exact ⟨rfl, fun db f => rfl, rfl, by decide, rfl⟩

/-- The create request used for the C5 concrete runs. -/
def reqCA : CreateCorrectiveActionRequest :=
  { incident_id := 1, title := "Add circuit breaker",
    description := "Protect the payments API", owner_user_id := 3,
    due_date := "2026-01-15" }

/-- C5: creating a corrective action is rejected with no persistence
unless the parent incident exists, its status is RESOLVED or CLOSED and
the due date parses as an ISO calendar date; on acceptance the action is
inserted with status OPEN and exactly one CREATE audit record is
written.  Concretely: against the OPEN incident of `db0` the create is
rejected, against `dbResolved` it succeeds. -/
theorem C5_corrective_action_create_gating :
    (∀ (db : DB) (u : User) (r : CreateCorrectiveActionRequest),
        db.findIncident r.incident_id = none →
        create_corrective_action db u r =
          ⟨.error (.httpException 404 "Incident not found"), []⟩)
    ∧ (∀ (db : DB) (u : User) (r : CreateCorrectiveActionRequest)
        (inc : Incident),
        db.findIncident r.incident_id = some inc →
        inc.status ≠ .RESOLVED → inc.status ≠ .CLOSED →
        create_corrective_action db u r =
          ⟨.error (.httpException 400
            "Corrective actions can only be created for RESOLVED or CLOSED incidents"),
           []⟩)
    ∧ (∀ (db : DB) (u : User) (r : CreateCorrectiveActionRequest)
        (inc : Incident),
        db.findIncident r.incident_id = some inc →
        (inc.status = .RESOLVED ∨ inc.status = .CLOSED) →
        date_fromisoformat r.due_date = none →
        create_corrective_action db u r =
          ⟨.error (.httpException 400 "Invalid due_date format (use YYYY-MM-DD)"),
           []⟩)
    ∧ (∀ (db : DB) (u : User) (r : CreateCorrectiveActionRequest)
        (inc : Incident) (d : CalDate),
        db.findIncident r.incident_id = some inc →
        (inc.status = .RESOLVED ∨ inc.status = .CLOSED) →
        date_fromisoformat r.due_date = some d →
        ∃ a d1 d2,
          create_corrective_action db u r = ⟨.ok a, [d1, d2]⟩ ∧
          a.status = .OPEN ∧ a.completed_at = none ∧ a.due_date = d ∧
          d1.actions = db.actions ++ [a] ∧ d1.audits = db.audits ∧
          d2.actions = d1.actions ∧
          d2.audits = d1.audits ++
            [{ entity_type := "CORRECTIVE_ACTION", entity_id := some a.id,
               action := .CREATE,
               description := some "Corrective action created",
               performed_by_id := some u.id, extra_data := none }])
    ∧ create_corrective_action db0 adminUser reqCA =
        ⟨.error (.httpException 400
          "Corrective actions can only be created for RESOLVED or CLOSED incidents"),
         []⟩
    ∧ (create_corrective_action dbResolved adminUser reqCA).result =
        .ok action1 := by
  refine ⟨?_, ?_, ?_, ?_, by decide, by decide⟩
  · intro db u r hf
    simp [create_corrective_action, hf]
  · intro db u r inc hf h1 h2
    have hbe : (inc.status == IncidentStatus.RESOLVED
        || inc.status == IncidentStatus.CLOSED) = false := by
      cases hs : inc.status
      case RESOLVED => exact absurd hs h1
      case CLOSED => exact absurd hs h2
      all_goals rfl
    simp [create_corrective_action, hf, hbe]
  · intro db u r inc hf hs hd
    have hbe : (inc.status == IncidentStatus.RESOLVED
        || inc.status == IncidentStatus.CLOSED) = true := by
      rcases hs with h | h <;> rw [h] <;> rfl
    simp [create_corrective_action, hf, hbe, hd]
  · intro db u r inc d hf hs hd
    have hbe : (inc.status == IncidentStatus.RESOLVED
        || inc.status == IncidentStatus.CLOSED) = true := by
      rcases hs with h | h <;> rw [h] <;> rfl
    simp only [create_corrective_action, hf, hbe, Bool.not_true,
      Bool.false_eq_true, if_false, hd]
    exact ⟨_, _, _, rfl, rfl, rfl, rfl, rfl, rfl, rfl, rfl⟩

/-- A create request that supplies `incident_manager_id = 0` and no
source. -/
def reqMgr0 : CreateIncidentRequest :=
  { title := "Batch failure", description := "Nightly batch failed",
    exception_text := none, bank_id := 1, severity := .P2,
    service_name := "batch", incident_manager_id := some 0, source := none,
    impact_summary := none }

/-- An advisory collaborator that succeeds without committing anything
further. -/
def aiNoop : DB → Nat → Except String DB := fun d _ => .ok d

/-- C9 counterexample: `db0` has no user with id 0, yet a create request
supplying `incident_manager_id = 0` is accepted — the guard
`if incident_data.incident_manager_id:` is Python truthiness, so id 0
skips the manager validation — and the incident is stored with manager
id 0.  This falsifies the claim's clause that a supplied
`incident_manager_id` is rejected unless the referenced user's role is
INCIDENT_MANAGER or ADMIN. -/
theorem C9_counterexample :
    db0.findUser 0 = none ∧
    (create_incident db0 adminUser reqMgr0 aiNoop).result =
      .ok { id := 2, title := "Batch failure",
            description := "Nightly batch failed", exception_text := none,
            bank_id := 1, severity := .P2, status := .OPEN,
            service_name := "batch", incident_manager_id := some 0,
            current_owner_id := none, created_by_id := 1,
            acknowledged_at := none, resolved_at := none, closed_at := none,
            source := some "Manual", impact_summary := none,
            downtime := none, financial_impact := none,
            technical_decline_pct := none } := by
  decide

/-- C9 (amended): create rejects a missing bank with 404 and, for a
nonzero supplied manager id, rejects a missing user or a role outside
{INCIDENT_MANAGER, ADMIN} with 400 (a supplied id of 0 skips that
validation by truthiness); on acceptance the incident is inserted with
status OPEN and defaulted source, the first commit carries the CREATE
timeline entry, the second the CREATE audit record, and the advisory
call's outcome changes neither the handler's result nor those two
commits. -/
theorem C9_create_incident_protocol :
    (∀ (db : DB) (u : User) (r : CreateIncidentRequest)
        (ai : DB → Nat → Except String DB),
        db.findBank r.bank_id = none →
        create_incident db u r ai =
          ⟨.error (.httpException 404 "Bank not found"), []⟩)
    ∧ (∀ (db : DB) (u : User) (r : CreateIncidentRequest)
        (ai : DB → Nat → Except String DB) (b : Bank),
        db.findBank r.bank_id = some b →
        manager_check_fails db r.incident_manager_id = true →
        create_incident db u r ai =
          ⟨.error (.httpException 400
            "Invalid incident manager (must be INCIDENT_MANAGER or ADMIN)"),
           []⟩)
    ∧ (∀ (db : DB) (mid : Nat) (m : User), mid ≠ 0 →
        db.findUser mid = some m →
        m.role ≠ .INCIDENT_MANAGER → m.role ≠ .ADMIN →
        manager_check_fails db (some mid) = true)
    ∧ (∀ (db : DB) (mid : Nat), mid ≠ 0 → db.findUser mid = none →
        manager_check_fails db (some mid) = true)
    ∧ (∀ db : DB, manager_check_fails db (some 0) = false)
    ∧ (∀ (db : DB) (u : User) (r : CreateIncidentRequest)
        (ai : DB → Nat → Except String DB) (b : Bank),
        db.findBank r.bank_id = some b →
        manager_check_fails db r.incident_manager_id = false →
        ∃ inc d1 d2 rest,
          create_incident db u r ai = ⟨.ok inc, [d1, d2] ++ rest⟩ ∧
          inc.status = .OPEN ∧
          (r.source = none → inc.source = some "Manual") ∧
          d1.incidents = db.incidents ++ [inc] ∧
          d1.timeline = db.timeline ++
            [{ incident_id := inc.id, event_type := "CREATE",
               event_description := "Incident created by " ++ u.name,
               performed_by_id := some u.id, old_value := none,
               new_value := none }] ∧
          d1.audits = db.audits ∧
          d2 = log_incident_create d1 inc.id u.id)
    ∧ (∀ (db : DB) (u : User) (r : CreateIncidentRequest)
        (ai ai2 : DB → Nat → Except String DB),
        (create_incident db u r ai).result =
          (create_incident db u r ai2).result ∧
        (create_incident db u r ai).commits.take 2 =
          (create_incident db u r ai2).commits.take 2) := by
  refine ⟨?_, ?_, ?_, ?_, fun db => rfl, ?_, ?_⟩
  · intro db u r ai hb
    simp [create_incident, hb]
  · intro db u r ai b hb hm
    simp [create_incident, hb, hm]
  · intro db mid m hmid hfind h1 h2
    have h0 : (mid == 0) = false := by
      simp [hmid]
    simp only [manager_check_fails, h0, hfind, Bool.false_eq_true, if_false]
    cases hr : m.role
    case INCIDENT_MANAGER => exact absurd hr h1
    case ADMIN => exact absurd hr h2
    all_goals rfl
  · intro db mid hmid hfind
    have h0 : (mid == 0) = false := by
      simp [hmid]
    simp only [manager_check_fails, h0, hfind, Bool.false_eq_true, if_false]
  · intro db u r ai b hb hm
    simp only [create_incident, hb, hm, Bool.false_eq_true, if_false]
    refine ⟨_, _, _, _, rfl, rfl, ?_, rfl, rfl, rfl, rfl⟩
    intro hs
    simp [hs]
  · intro db u r ai ai2
    unfold create_incident
    cases hb : db.findBank r.bank_id
    case none => exact ⟨rfl, rfl⟩
    case some b =>
      cases hm : manager_check_fails db r.incident_manager_id
      case false => exact ⟨rfl, rfl⟩
      case true => exact ⟨rfl, rfl⟩

/-- An update request touching only impact fields. -/
def reqImpactOnly : UpdateIncidentRequest :=
  { title := none, description := none, exception_text := none,
    severity := none, service_name := none, incident_manager_id := none,
    current_owner_id := none, impact_summary := none, downtime := some true,
    financial_impact := none, technical_decline_pct := some 37 }

/-- C10: the structured audit `changes` map covers only `title`,
`description`, `severity`, `service_name` and the two assignment
relations, and the UPDATE audit record is written only when that map is
non-empty; hence an update whose only effective changes are
`exception_text`, `impact_summary` or the impact fields commits those
changes in a single transaction with no audit record at all. -/
theorem C10_untracked_fields_commit_without_audit :
    (∀ (inc : Incident) (r : UpdateIncidentRequest),
        ∀ c ∈ (apply_basic_fields inc r).2,
          c.1 ∈ (["title", "description", "severity", "service_name"] :
            List String))
    ∧ (∀ (db : DB) (inc : Incident) (u : User) (r : UpdateIncidentRequest),
        ∀ c ∈ (apply_assignments db inc u r).2.1,
          c.1 ∈ (["incident_manager", "current_owner"] : List String))
    ∧ (∀ (db : DB) (u : User) (iid : Nat) (r : UpdateIncidentRequest)
        (inc : Incident),
        db.findIncident iid = some inc →
        r.title = none → r.description = none → r.severity = none →
        r.service_name = none → r.incident_manager_id = none →
        r.current_owner_id = none → r.downtime = none →
        r.financial_impact = none → r.technical_decline_pct = none →
        ∃ inc2 d1,
          update_incident db u iid r = ⟨.ok inc2, [d1]⟩ ∧
          d1.audits = db.audits ∧ d1.timeline = db.timeline ∧
          d1.incidents = db.incidents.map
            (fun i => if i.id == iid then inc2 else i) ∧
          inc2.exception_text = (match r.exception_text with
            | none => inc.exception_text
            | some e => some e) ∧
          inc2.impact_summary = (match r.impact_summary with
            | none => inc.impact_summary
            | some s => some s))
    ∧ (∀ (db : DB) (u : User) (iid : Nat) (r : UpdateIncidentRequest)
        (inc : Incident),
        db.findIncident iid = some inc →
        can_update_impact_fields u = true →
        r.title = none → r.description = none → r.severity = none →
        r.service_name = none → r.incident_manager_id = none →
        r.current_owner_id = none → r.exception_text = none →
        r.impact_summary = none →
        ∃ inc2 d1,
          update_incident db u iid r = ⟨.ok inc2, [d1]⟩ ∧
          d1.audits = db.audits ∧ d1.timeline = db.timeline ∧
          inc2 = (if (r.downtime.isSome || r.financial_impact.isSome ||
              r.technical_decline_pct.isSome) then apply_impact_fields inc r
            else inc))
    ∧ update_incident db0 managerUser 1 reqImpactOnly =
        ⟨.ok { incident1 with
               downtime := some true, technical_decline_pct := some 37 },
         [{ db0 with incidents :=
              [{ incident1 with
                 downtime := some true,
                 technical_decline_pct := some 37 }] }]⟩ := by
  refine ⟨?_, ?_, ?_, ?_, by decide⟩
  · intro inc r
    unfold apply_basic_fields
    cases r.title <;> cases r.description <;> cases r.severity <;>
      cases r.service_name <;> cases r.exception_text <;>
      cases r.impact_summary <;> simp
  · intro db inc u r c hc
    unfold apply_assignments at hc
    repeat' split at hc
    all_goals simp_all
    all_goals rcases hc with rfl | rfl
    all_goals simp
  · intro db u iid r inc hf ht hd hsv hsn hm ho hdt hfi htp
    cases he : r.exception_text <;> cases him : r.impact_summary <;>
      simp only [update_incident, apply_basic_fields, apply_assignments,
        hf, ht, hd, hsv, hsn, hm, ho, hdt, hfi, htp, he, him,
        Option.isSome_none, Bool.or_self, Bool.or_false, Bool.false_and,
        Bool.false_eq_true, if_false, List.append_nil, List.nil_append,
        List.isEmpty_nil, if_true] <;>
      exact ⟨_, _, rfl, rfl, rfl, rfl, rfl, rfl⟩
  · intro db u iid r inc hf hcan ht hd hsv hsn hm ho he him
    cases himp : (r.downtime.isSome || r.financial_impact.isSome ||
        r.technical_decline_pct.isSome) <;>
      simp only [update_incident, apply_basic_fields, apply_assignments,
        hf, ht, hd, hsv, hsn, hm, ho, he, him, hcan, himp,
        Bool.not_true, Bool.true_and, Bool.and_false, Bool.false_eq_true,
        if_false, if_true, Bool.and_self, List.append_nil,
        List.nil_append, List.isEmpty_nil] <;>
      exact ⟨_, _, rfl, rfl, rfl, rfl⟩

end IncidentApp
